import Mathlib

/-
Verification of the DQN training-loop orchestrator of baselines/deepq/deepq.py
(function learn).  The loop itself is embedded faithfully from the source as a
step function over an explicit state; collaborators implemented outside this
repository (LinearSchedule, the replay buffers, the TensorFlow model) are
modelled from the specification where their behaviour decides a claim, and are
kept abstract (opaque function parameters) where it does not.

Numeric convention: Python floats are modelled as rationals (ℚ); the only
transcendental quantities (the parameter-noise threshold, the prioritized
importance weights, both involving log / real powers) are modelled over ℝ.
-/

namespace Baselines

/-! ## Linear schedule (baselines.common.schedules.LinearSchedule) -/

/-- Modelled from the spec: `baselines/common/schedules.py` is not under `src/`;
only its call sites are.  A `LinearSchedule` is the immutable configuration
`(schedule_timesteps, initial_p, final_p)` of the linear annealing schedule
(spec section 4.3).  Field names follow the keyword arguments used at the call
site in `deepq.py` lines 152-162. -/
structure LinearSchedule where
  schedule_timesteps : ℕ
  initial_p : ℚ
  final_p : ℚ
  deriving DecidableEq, Repr

/-- Modelled from the spec (section 4.3): `fraction = min(1.0, step /
schedule_timesteps)`, with the fraction treated as `1.0` when
`schedule_timesteps` is `0` (the division-by-zero special case); the result is
`initial_p + fraction * (final_p - initial_p)`. -/
def LinearSchedule.value (s : LinearSchedule) (t : ℕ) : ℚ :=
  let fraction : ℚ :=
    if s.schedule_timesteps = 0 then 1
    else min 1 ((t : ℚ) / (s.schedule_timesteps : ℚ))
  s.initial_p + fraction * (s.final_p - s.initial_p)

/-- The fraction used by `LinearSchedule.value`, exposed for the lemmas. -/
def LinearSchedule.fraction (s : LinearSchedule) (t : ℕ) : ℚ :=
  if s.schedule_timesteps = 0 then 1
  else min 1 ((t : ℚ) / (s.schedule_timesteps : ℚ))

theorem LinearSchedule.value_eq (s : LinearSchedule) (t : ℕ) :
    s.value t = s.initial_p + s.fraction t * (s.final_p - s.initial_p) := rfl

theorem LinearSchedule.fraction_zero (s : LinearSchedule)
    (h : 0 < s.schedule_timesteps) : s.fraction 0 = 0 := by
  unfold LinearSchedule.fraction
  rw [if_neg h.ne']
  norm_num

theorem LinearSchedule.value_zero (s : LinearSchedule)
    (h : 0 < s.schedule_timesteps) : s.value 0 = s.initial_p := by
  rw [LinearSchedule.value_eq, s.fraction_zero h]; ring

theorem LinearSchedule.fraction_of_le (s : LinearSchedule)
    (t : ℕ) (h : s.schedule_timesteps ≤ t) : s.fraction t = 1 := by
  unfold LinearSchedule.fraction
  rcases Nat.eq_zero_or_pos s.schedule_timesteps with h0 | h0
  · simp [h0]
  · have hd : (0 : ℚ) < (s.schedule_timesteps : ℚ) := by exact_mod_cast h0
    have hle : (1 : ℚ) ≤ (t : ℚ) / (s.schedule_timesteps : ℚ) := by
      rw [le_div_iff₀ hd]
      simpa using (by exact_mod_cast h : (s.schedule_timesteps : ℚ) ≤ (t : ℚ))
    simp [h0.ne', min_eq_left hle]

theorem LinearSchedule.value_of_le (s : LinearSchedule)
    (t : ℕ) (h : s.schedule_timesteps ≤ t) : s.value t = s.final_p := by
  rw [LinearSchedule.value_eq, s.fraction_of_le t h]; ring

theorem LinearSchedule.fraction_mono (s : LinearSchedule)
    {t1 t2 : ℕ} (h : t1 ≤ t2) : s.fraction t1 ≤ s.fraction t2 := by
  unfold LinearSchedule.fraction
  rcases Nat.eq_zero_or_pos s.schedule_timesteps with h0 | h0
  · simp [h0]
  · have hd : (0 : ℚ) < (s.schedule_timesteps : ℚ) := by exact_mod_cast h0
    have hdiv : (t1 : ℚ) / (s.schedule_timesteps : ℚ)
        ≤ (t2 : ℚ) / (s.schedule_timesteps : ℚ) := by
      apply div_le_div_of_nonneg_right ?_ hd.le
      exact_mod_cast h
    simp only [h0.ne', if_false]
    exact min_le_min le_rfl hdiv

theorem LinearSchedule.fraction_le_one (s : LinearSchedule) (t : ℕ) :
    s.fraction t ≤ 1 := by
  unfold LinearSchedule.fraction
  rcases Nat.eq_zero_or_pos s.schedule_timesteps with h0 | h0
  · simp [h0]
  · simp [h0.ne']

theorem LinearSchedule.value_mono_of_le (s : LinearSchedule)
    {t1 t2 : ℕ} (h : t1 ≤ t2) (hif : s.initial_p ≤ s.final_p) :
    s.value t1 ≤ s.value t2 := by
  rw [LinearSchedule.value_eq, LinearSchedule.value_eq]
  have := s.fraction_mono h
  nlinarith [s.fraction_mono h]

theorem LinearSchedule.value_anti_of_ge (s : LinearSchedule)
    {t1 t2 : ℕ} (h : t1 ≤ t2) (hif : s.final_p ≤ s.initial_p) :
    s.value t2 ≤ s.value t1 := by
  rw [LinearSchedule.value_eq, LinearSchedule.value_eq]
  nlinarith [s.fraction_mono h]

theorem LinearSchedule.value_zero_of_dur_zero (s : LinearSchedule)
    (h : s.schedule_timesteps = 0) : s.value 0 = s.final_p := by
  rw [LinearSchedule.value_eq]
  unfold LinearSchedule.fraction
  simp [h]

/-! ## Exploration schedule construction (deepq.py lines 158-162) -/

/-- The exploration schedule built by `learn` (deepq.py lines 158-162):
`LinearSchedule(schedule_timesteps=int(exploration_fraction * total_timesteps),
initial_p=1.0, final_p=exploration_final_eps)`.  Python `int()` truncates
toward zero; for the non-negative products that occur here this is the floor,
embedded as `Int.toNat ∘ Int.floor`. -/
def explorationSchedule (exploration_fraction : ℚ) (total_timesteps : ℕ)
    (exploration_final_eps : ℚ) : LinearSchedule :=
  { schedule_timesteps := (⌊exploration_fraction * (total_timesteps : ℚ)⌋).toNat
    initial_p := 1
    final_p := exploration_final_eps }

/-! ## Data model of the orchestrator loop (deepq.py, function learn) -/

/-- One replay-buffer record, the argument tuple of `replay_buffer.add`
(deepq.py lines 210 and 212-213); the `done` component is stored through
`float(done)` in the source, embedded as the rational `1` / `0`. -/
structure Transition (O : Type) where
  obs : O
  action : ℕ
  rew : ℚ
  new_obs : O
  done : ℚ
  deriving DecidableEq, Repr

/-- The hyper-parameters of `learn` that the embedded loop reads
(deepq.py lines 18-43).  Parameters that only feed the opaque TensorFlow
model (lr, gamma, batch_size, ...) or the logging/checkpoint side effects are
not part of the control state and are omitted. -/
structure Config where
  total_timesteps : ℕ
  total_episodes : ℕ
  exploration_fraction : ℚ
  exploration_final_eps : ℚ
  train_freq : ℕ
  learning_starts : ℕ
  target_network_update_freq : ℕ
  prioritized_replay : Bool
  prioritized_replay_eps : ℚ
  param_noise : Bool
  deriving Repr

/-- The agent model as the orchestrator sees it: an online and a target
parameter set (spec section 3, Agent Model state).  The parameter type `P` is
abstract; gradient steps are an opaque function on `P`. -/
structure DEEPQ (P : Type) where
  online : P
  target : P
  deriving DecidableEq, Repr

/-- `model.update_target()` hard-copies the online parameters into the target
parameter set (spec section 4.4). -/
def DEEPQ.update_target {P : Type} (m : DEEPQ P) : DEEPQ P :=
  { m with target := m.online }

/-- A non-vectorized gym environment: `reset` and `step` over an opaque
environment state `S`, returning (new state, observation) and
(new state, observation, reward, done) respectively. -/
structure GymEnv (O S : Type) where
  reset : S → S × O
  step : S → ℕ → S × O × ℚ × Bool

/-- `new_priorities = np.abs(td_errors) + prioritized_replay_eps`
(deepq.py line 240). -/
def newPriorities (td_errors : List ℚ) (prioritized_replay_eps : ℚ) : List ℚ :=
  td_errors.map (fun e => |e| + prioritized_replay_eps)

/-- `episode_rewards[-1] += rew` (deepq.py line 218): add `rew` to the last
entry of the list. -/
def updateLast (l : List ℚ) (rew : ℚ) : List ℚ :=
  match l with
  | [] => []
  | [x] => [x + rew]
  | x :: y :: rest => x :: updateLast (y :: rest) rew

/-- The mutable state of the training loop at the top of an iteration:
environment state, batched current observation, the post-reset flag, the
per-episode reward list, the sequence of `replay_buffer.add` calls issued so
far, the model, and two instrumentation logs for the opaque calls (number of
`model.train` calls, and the priority vectors passed to
`replay_buffer.update_priorities`). -/
structure LoopState (O S P : Type) where
  envState : S
  obs : List O
  reset : Bool
  episode_rewards : List ℚ
  buffer : List (Transition O)
  model : DEEPQ P
  trainCalls : ℕ
  priorityUpdates : List (List ℚ)
  deriving Repr

/-- `update_eps` as passed to `model.step` (deepq.py lines 183-188):
`0` in parameter-noise mode, otherwise the exploration schedule value. -/
def updateEps (param_noise : Bool) (explorationValue : ℚ) : ℚ :=
  if param_noise then 0 else explorationValue

/-- The action chosen at step `t` (deepq.py lines 202-204): the model's
action-selection (abstract `actF`) applied to the current observation batch
and the `update_eps` value for this step. -/
def chosenAction {O S P : Type} (cfg : Config) (actF : List O → ℚ → ℕ)
    (t : ℕ) (s : LoopState O S P) : ℕ :=
  actF s.obs
    (updateEps cfg.param_noise
      ((explorationSchedule cfg.exploration_fraction cfg.total_timesteps
        cfg.exploration_final_eps).value t))

/-- One iteration of the training loop (deepq.py lines 179-279), returning the
state after the iteration and a `Bool` that is `true` exactly when the source
executes `break`.  `actF` stands for `model.step` (opaque action selection),
`trainF` for the effect of `model.train` on the online parameters, `tdF` for
the TD errors `model.train` returns, and `cb` for the optional callback
(`cb = fun _ _ => false` models `callback=None`). -/
def loopBody {O S P : Type} [Inhabited O] (cfg : Config) (env : GymEnv O S)
    (actF : List O → ℚ → ℕ) (trainF : P → P) (tdF : P → List ℚ)
    (cb : ℕ → LoopState O S P → Bool)
    (t : ℕ) (s : LoopState O S P) : LoopState O S P × Bool :=
  -- lines 180-182: callback first; truthy return breaks before any other work
  if cb t s then (s, true) else
  -- lines 183-204: update_eps / kwargs, then action selection
  let action := chosenAction cfg actF t s
  -- line 206: new_obs, rew, done, _ = env.step(action)
  let out := env.step s.envState action
  let rew := out.2.2.1
  let done := out.2.2.2
  -- line 209: new_obs = np.expand_dims(np.array(new_obs), axis=0)
  let new_obs : List O := [out.2.1]
  let s1 : LoopState O S P :=
    { envState := out.1
      -- line 216: obs = new_obs
      obs := new_obs
      -- line 205: reset = False
      reset := false
      -- line 218: episode_rewards[-1] += rew
      episode_rewards := updateLast s.episode_rewards rew
      -- line 210: replay_buffer.add(obs[0], action, rew, new_obs[0], float(done))
      buffer := s.buffer ++
        [⟨s.obs.headI, action, rew, new_obs.headI, if done then 1 else 0⟩]
      -- lines 220-245: learning step, then target sync
      model :=
        (if cfg.learning_starts < t ∧ t % cfg.target_network_update_freq = 0 then
          DEEPQ.update_target
            (if cfg.learning_starts < t ∧ t % cfg.train_freq = 0 then
              { s.model with online := trainF s.model.online }
            else s.model)
        else
          (if cfg.learning_starts < t ∧ t % cfg.train_freq = 0 then
            { s.model with online := trainF s.model.online }
          else s.model))
      trainCalls :=
        if cfg.learning_starts < t ∧ t % cfg.train_freq = 0 then
          s.trainCalls + 1
        else s.trainCalls
      -- lines 239-241: update_priorities(batch_idxes, |td_errors| + eps)
      priorityUpdates :=
        if (cfg.learning_starts < t ∧ t % cfg.train_freq = 0)
            ∧ cfg.prioritized_replay then
          s.priorityUpdates ++
            [newPriorities (tdF s.model.online) cfg.prioritized_replay_eps]
        else s.priorityUpdates }
  -- lines 247-279: episode end handling
  if done then
    (if cfg.total_episodes < s1.episode_rewards.length then (s1, true)
     else
       ({ s1 with
            envState := (env.reset s1.envState).1
            obs := [(env.reset s1.envState).2]
            episode_rewards := s1.episode_rewards ++ [(0 : ℚ)]
            reset := true }, false))
  else (s1, false)

/-- The loop `for t in range(total_timesteps)` (deepq.py line 179), driven by
the remaining iteration count: `runFrom t fuel s` executes iterations
`t, t+1, ...` until `fuel` runs out or an iteration breaks. -/
def runFrom {O S P : Type} [Inhabited O] (cfg : Config) (env : GymEnv O S)
    (actF : List O → ℚ → ℕ) (trainF : P → P) (tdF : P → List ℚ)
    (cb : ℕ → LoopState O S P → Bool) :
    ℕ → ℕ → LoopState O S P → LoopState O S P
  | _, 0, s => s
  | t, fuel + 1, s =>
    let r := loopBody cfg env actF trainF tdF cb t s
    if r.2 then r.1
    else runFrom cfg env actF trainF tdF cb (t + 1) fuel r.1

/-- The loop state just before the first iteration (deepq.py lines 164-172):
the model after the initial `model.update_target()` (initial online parameters
`p0`, arbitrary initial target parameters `t0`), `episode_rewards = [0.0]`,
the observation from `env.reset()` wrapped into a batch of one, and
`reset = True`. -/
def initialState {O S P : Type} (env : GymEnv O S) (es : S) (p0 t0 : P) :
    LoopState O S P :=
  { envState := (env.reset es).1
    obs := [(env.reset es).2]
    reset := true
    episode_rewards := [0]
    buffer := []
    model := DEEPQ.update_target ⟨p0, t0⟩
    trainCalls := 0
    priorityUpdates := [] }

/-- The whole training run: initial state, then `total_timesteps` iterations
(fewer if an iteration breaks).  Exposes the final loop state. -/
def learnRun {O S P : Type} [Inhabited O] (cfg : Config) (env : GymEnv O S)
    (actF : List O → ℚ → ℕ) (trainF : P → P) (tdF : P → List ℚ)
    (cb : ℕ → LoopState O S P → Bool) (es : S) (p0 t0 : P) :
    LoopState O S P :=
  runFrom cfg env actF trainF tdF cb 0 cfg.total_timesteps
    (initialState env es p0 t0)

/-- `learn` (deepq.py line 284): the model object of the final loop state is
returned to the caller on every termination path. -/
def learn {O S P : Type} [Inhabited O] (cfg : Config) (env : GymEnv O S)
    (actF : List O → ℚ → ℕ) (trainF : P → P) (tdF : P → List ℚ)
    (cb : ℕ → LoopState O S P → Bool) (es : S) (p0 t0 : P) : DEEPQ P :=
  (learnRun cfg env actF trainF tdF cb es p0 t0).model

/-! ## Deterministic mock environments and scenario configurations -/

/-- The deterministic mock environment of the end-to-end scenario (spec
section 8): fixed reward `1.0`, `done` on every 10th step since the last
reset.  The environment state is a step counter; `reset` restarts it at `0`
and returns observation `0`. -/
def mockEnv10 : GymEnv ℕ ℕ :=
  { reset := fun _ => (0, 0)
    step := fun c _ => (c + 1, c + 1, 1, decide ((c + 1) % 10 = 0)) }

/-- A deterministic mock environment that never ends an episode
(fixed reward `1.0`, `done` always false). -/
def mockEnvNoDone : GymEnv ℕ ℕ :=
  { reset := fun _ => (0, 0)
    step := fun c _ => (c + 1, c + 1, 1, false) }

/-- The end-to-end scenario configuration (spec section 8): `buffer_size=100`
(capacity never reached in 50 steps), `learning_starts=10`, `batch_size=4`,
`train_freq=1`, 50 steps; remaining parameters at the `learn` defaults except
that the huge default caps are kept out of reach. -/
def cfgScenario : Config :=
  { total_timesteps := 50
    total_episodes := 2 ^ 62
    exploration_fraction := 1 / 10
    exploration_final_eps := 1 / 50
    train_freq := 1
    learning_starts := 10
    target_network_update_freq := 500
    prioritized_replay := false
    prioritized_replay_eps := 1 / 1000000
    param_noise := false }

/-- Final loop state of the end-to-end scenario: `mockEnv10`, a constant
action-selection mock, `Nat.succ` as the opaque gradient step (so the online
parameter counts `model.train` calls), no callback. -/
def scenarioState : LoopState ℕ ℕ ℕ :=
  learnRun cfgScenario mockEnv10 (fun _ _ => 0) Nat.succ (fun _ => [])
    (fun _ _ => false) 0 0 0

/-- The target-sync scenario configuration (spec section 8):
`target_network_update_freq=5`, `learning_starts=0`, 20 steps. -/
def cfgSync : Config :=
  { total_timesteps := 20
    total_episodes := 2 ^ 62
    exploration_fraction := 1 / 10
    exploration_final_eps := 1 / 50
    train_freq := 1
    learning_starts := 0
    target_network_update_freq := 5
    prioritized_replay := false
    prioritized_replay_eps := 1 / 1000000
    param_noise := false }

/-- The episode-cap scenario: as the end-to-end scenario but with
`total_episodes = 2`, so the third completed episode exceeds the cap and the
loop breaks at step 29. -/
def cfgEpisodeCap : Config :=
  { cfgScenario with total_episodes := 2 }

/-- Final loop state of the episode-cap scenario. -/
def episodeCapState : LoopState ℕ ℕ ℕ :=
  learnRun cfgEpisodeCap mockEnv10 (fun _ _ => 0) Nat.succ (fun _ => [])
    (fun _ _ => false) 0 0 0

/-! ## Vectorized store (deepq.py lines 211-213) -/

/-- The `VecEnv` branch of the transition store (deepq.py lines 212-213):
`replay_buffer.add(obs[0], action, rew[0], new_obs[0], float(done[0]))` —
the observation, reward, next-observation and done batches are indexed at `0`,
whatever the vector width. -/
def vecAdd {O : Type} [Inhabited O] (buffer : List (Transition O))
    (obs : List O) (action : ℕ) (rew : List ℚ) (new_obs : List O)
    (done : List Bool) : List (Transition O) :=
  buffer ++
    [⟨obs.headI, action, rew.headI, new_obs.headI, if done.headI then 1 else 0⟩]

/-! ## model.step keyword arguments (deepq.py lines 183-201) -/

/-- The keyword-argument dictionary passed to `model.step`: each optional key
is `none` when absent from the dictionary. -/
structure StepKwargs where
  reset : Option Bool
  update_param_noise_threshold : Option ℝ
  update_param_noise_scale : Option Bool

/-- deepq.py lines 183-201: with `param_noise` the dictionary carries the
`reset` flag, the KL threshold `-log(1 - eps + eps/num_actions)` computed from
the exploration value, and `update_param_noise_scale = True`; without
`param_noise` the dictionary stays empty. -/
noncomputable def stepKwargs (param_noise : Bool) (explorationValue : ℚ)
    (reset : Bool) (num_actions : ℕ) : StepKwargs :=
  if param_noise then
    { reset := some reset
      update_param_noise_threshold :=
        some (-Real.log (1 - (explorationValue : ℝ)
          + (explorationValue : ℝ) / (num_actions : ℝ)))
      update_param_noise_scale := some true }
  else
    { reset := none
      update_param_noise_threshold := none
      update_param_noise_scale := none }

/-! ## Prioritized importance weights (spec sections 4.2 and 8) -/

/-- Minimum of a list of reals (the min-tree query); `0` on the empty list,
which never occurs at the call sites. -/
def listMin : List ℝ → ℝ
  | [] => 0
  | [x] => x
  | x :: y :: rest => min x (listMin (y :: rest))

theorem listMin_mem : ∀ (l : List ℝ), l ≠ [] → listMin l ∈ l
  | [], h => absurd rfl h
  | [x], _ => by simp [listMin]
  | x :: y :: rest, _ => by
    rcases le_total x (listMin (y :: rest)) with h | h
    · simp [listMin, min_eq_left h]
    · have := listMin_mem (y :: rest) (by simp)
      simp only [listMin, min_eq_right h]
      exact List.mem_cons_of_mem _ this

theorem listMin_le : ∀ (l : List ℝ) (p : ℝ), p ∈ l → listMin l ≤ p
  | [], _, h => by simp at h
  | [x], p, h => by simp at h; simp [listMin, h]
  | x :: y :: rest, p, h => by
    rcases List.mem_cons.mp h with rfl | h
    · simp [listMin]
    · calc listMin (x :: y :: rest) ≤ listMin (y :: rest) := min_le_right _ _
        _ ≤ p := listMin_le (y :: rest) p h

/-- Modelled from the spec: `baselines/deepq/replay_buffer.py` is not under
`src/`.  Spec section 4.2: the unnormalized importance weight of a transition
with raw priority `p` in the buffer of priorities `ps` is
`(N * P)^(-beta)` where `P = p / sum(ps)` is the normalized priority and
`N = len(ps)` the current buffer size. -/
noncomputable def rawWeight (ps : List ℝ) (beta : ℝ) (p : ℝ) : ℝ :=
  ((ps.length : ℝ) * (p / ps.sum)) ^ (-beta)

/-- Modelled from the spec (section 4.2): `max_weight` is the unnormalized
weight of the global minimum priority, obtained from the min-tree. -/
noncomputable def maxWeight (ps : List ℝ) (beta : ℝ) : ℝ :=
  rawWeight ps beta (listMin ps)

/-- Modelled from the spec (section 4.2): the importance weight returned by
prioritized `sample` for sampled index `i`:
`weight = (N * P(i))^(-beta) / max_weight`. -/
noncomputable def isWeight (ps : List ℝ) (beta : ℝ) (i : ℕ) : ℝ :=
  rawWeight ps beta (ps.getD i 0) / maxWeight ps beta

/-! ## Helper lemmas about one loop iteration -/

theorem loopBody_cb_true {O S P : Type} [Inhabited O] (cfg : Config)
    (env : GymEnv O S) (actF : List O → ℚ → ℕ) (trainF : P → P)
    (tdF : P → List ℚ) (cb : ℕ → LoopState O S P → Bool) (t : ℕ)
    (s : LoopState O S P) (h : cb t s = true) :
    loopBody cfg env actF trainF tdF cb t s = (s, true) := by
  simp [loopBody, h]

theorem loopBody_trainCalls {O S P : Type} [Inhabited O] (cfg : Config)
    (env : GymEnv O S) (actF : List O → ℚ → ℕ) (trainF : P → P)
    (tdF : P → List ℚ) (cb : ℕ → LoopState O S P → Bool) (t : ℕ)
    (s : LoopState O S P) (h : cb t s = false) :
    ((loopBody cfg env actF trainF tdF cb t s).1).trainCalls =
      if cfg.learning_starts < t ∧ t % cfg.train_freq = 0 then
        s.trainCalls + 1
      else s.trainCalls := by
  simp only [loopBody, h, Bool.false_eq_true, if_false]
  split_ifs <;> rfl

theorem loopBody_buffer {O S P : Type} [Inhabited O] (cfg : Config)
    (env : GymEnv O S) (actF : List O → ℚ → ℕ) (trainF : P → P)
    (tdF : P → List ℚ) (cb : ℕ → LoopState O S P → Bool) (t : ℕ)
    (s : LoopState O S P) (h : cb t s = false) :
    ((loopBody cfg env actF trainF tdF cb t s).1).buffer =
      s.buffer ++
        [⟨s.obs.headI, chosenAction cfg actF t s,
          (env.step s.envState (chosenAction cfg actF t s)).2.2.1,
          (env.step s.envState (chosenAction cfg actF t s)).2.1,
          if (env.step s.envState (chosenAction cfg actF t s)).2.2.2 then 1
          else 0⟩] := by
  simp only [loopBody, h, Bool.false_eq_true, if_false]
  split_ifs <;> rfl

theorem loopBody_online {O S P : Type} [Inhabited O] (cfg : Config)
    (env : GymEnv O S) (actF : List O → ℚ → ℕ) (trainF : P → P)
    (tdF : P → List ℚ) (cb : ℕ → LoopState O S P → Bool) (t : ℕ)
    (s : LoopState O S P) (h : cb t s = false) :
    ((loopBody cfg env actF trainF tdF cb t s).1).model.online =
      if cfg.learning_starts < t ∧ t % cfg.train_freq = 0 then
        trainF s.model.online
      else s.model.online := by
  simp only [loopBody, h, Bool.false_eq_true, if_false]
  split_ifs <;> rfl

theorem loopBody_target {O S P : Type} [Inhabited O] (cfg : Config)
    (env : GymEnv O S) (actF : List O → ℚ → ℕ) (trainF : P → P)
    (tdF : P → List ℚ) (cb : ℕ → LoopState O S P → Bool) (t : ℕ)
    (s : LoopState O S P) (h : cb t s = false) :
    ((loopBody cfg env actF trainF tdF cb t s).1).model.target =
      if cfg.learning_starts < t ∧ t % cfg.target_network_update_freq = 0 then
        ((loopBody cfg env actF trainF tdF cb t s).1).model.online
      else s.model.target := by
  simp only [loopBody, h, Bool.false_eq_true, if_false]
  split_ifs <;> rfl

theorem loopBody_break_iff {O S P : Type} [Inhabited O] (cfg : Config)
    (env : GymEnv O S) (actF : List O → ℚ → ℕ) (trainF : P → P)
    (tdF : P → List ℚ) (cb : ℕ → LoopState O S P → Bool) (t : ℕ)
    (s : LoopState O S P) (h : cb t s = false) :
    (loopBody cfg env actF trainF tdF cb t s).2 = true ↔
      ((env.step s.envState (chosenAction cfg actF t s)).2.2.2 = true ∧
        cfg.total_episodes <
          (updateLast s.episode_rewards
            (env.step s.envState (chosenAction cfg actF t s)).2.2.1).length) := by
  simp only [loopBody, h, Bool.false_eq_true, if_false]
  split_ifs with h1 h2 <;> simp_all

theorem loopBody_done_reset {O S P : Type} [Inhabited O] (cfg : Config)
    (env : GymEnv O S) (actF : List O → ℚ → ℕ) (trainF : P → P)
    (tdF : P → List ℚ) (cb : ℕ → LoopState O S P → Bool) (t : ℕ)
    (s : LoopState O S P) (h : cb t s = false)
    (hdone : (env.step s.envState (chosenAction cfg actF t s)).2.2.2 = true)
    (hcap : ¬ cfg.total_episodes <
      (updateLast s.episode_rewards
        (env.step s.envState (chosenAction cfg actF t s)).2.2.1).length) :
    ((loopBody cfg env actF trainF tdF cb t s).1).reset = true ∧
    ((loopBody cfg env actF trainF tdF cb t s).1).episode_rewards =
      updateLast s.episode_rewards
        (env.step s.envState (chosenAction cfg actF t s)).2.2.1 ++ [(0 : ℚ)] ∧
    ((loopBody cfg env actF trainF tdF cb t s).1).obs =
      [(env.reset
        (env.step s.envState (chosenAction cfg actF t s)).1).2] ∧
    (loopBody cfg env actF trainF tdF cb t s).2 = false := by
  simp only [loopBody, h, Bool.false_eq_true, if_false]
  split_ifs <;> simp_all

theorem loopBody_priorityUpdates {O S P : Type} [Inhabited O] (cfg : Config)
    (env : GymEnv O S) (actF : List O → ℚ → ℕ) (trainF : P → P)
    (tdF : P → List ℚ) (cb : ℕ → LoopState O S P → Bool) (t : ℕ)
    (s : LoopState O S P) :
    ((loopBody cfg env actF trainF tdF cb t s).1).priorityUpdates =
        s.priorityUpdates ∨
    ((loopBody cfg env actF trainF tdF cb t s).1).priorityUpdates =
        s.priorityUpdates ++
          [newPriorities (tdF s.model.online) cfg.prioritized_replay_eps] := by
  rcases hcb : cb t s with hf | ht
  · simp only [loopBody, hcb, Bool.false_eq_true, if_false]
    split_ifs <;> simp_all
  · left
    rw [loopBody_cb_true cfg env actF trainF tdF cb t s hcb]

theorem newPriorities_pos (td : List ℚ) (eps : ℚ) (heps : 0 < eps) :
    ∀ q ∈ newPriorities td eps, 0 < q := by
  intro q hq
  rcases List.mem_map.mp hq with ⟨e, _, rfl⟩
  have := abs_nonneg e
  linarith

theorem runFrom_succ {O S P : Type} [Inhabited O] (cfg : Config)
    (env : GymEnv O S) (actF : List O → ℚ → ℕ) (trainF : P → P)
    (tdF : P → List ℚ) (cb : ℕ → LoopState O S P → Bool) (t fuel : ℕ)
    (s : LoopState O S P) :
    runFrom cfg env actF trainF tdF cb t (fuel + 1) s =
      if (loopBody cfg env actF trainF tdF cb t s).2 then
        (loopBody cfg env actF trainF tdF cb t s).1
      else
        runFrom cfg env actF trainF tdF cb (t + 1) fuel
          (loopBody cfg env actF trainF tdF cb t s).1 := rfl

theorem runFrom_priorityUpdates_pos {O S P : Type} [Inhabited O]
    (cfg : Config) (env : GymEnv O S) (actF : List O → ℚ → ℕ) (trainF : P → P)
    (tdF : P → List ℚ) (cb : ℕ → LoopState O S P → Bool)
    (heps : 0 < cfg.prioritized_replay_eps) :
    ∀ (fuel t : ℕ) (s : LoopState O S P),
      (∀ l ∈ s.priorityUpdates, ∀ q ∈ l, 0 < q) →
      ∀ l ∈ (runFrom cfg env actF trainF tdF cb t fuel s).priorityUpdates,
        ∀ q ∈ l, 0 < q := by
  intro fuel
  induction fuel with
  | zero => intro t s hs; exact hs
  | succ n ih =>
    intro t s hs
    have hbody : ∀ l ∈ ((loopBody cfg env actF trainF tdF cb t s).1).priorityUpdates,
        ∀ q ∈ l, 0 < q := by
      rcases loopBody_priorityUpdates cfg env actF trainF tdF cb t s with
        heq | heq
      · rw [heq]; exact hs
      · rw [heq]
        intro l hl
        rcases List.mem_append.mp hl with hl | hl
        · exact hs l hl
        · rcases List.mem_singleton.mp hl with rfl
          exact newPriorities_pos _ _ heps
    rw [runFrom_succ]
    split_ifs
    · exact hbody
    · exact ih (t + 1) _ hbody

/-- The initial loop state of the mock scenarios, with all type parameters at
`ℕ` (observation = env counter, online parameter = train-call counter). -/
def initState0 : LoopState ℕ ℕ ℕ := initialState mockEnv10 0 0 0

/-! ## Claims -/

/-- C5 (counterexample): the claim asserts `value(0) == initial_value` for
every schedule configuration, but for the configuration
`(schedule_timesteps, initial_p, final_p) = (0, 1, 0)` the zero-duration
special case forces `fraction = 1`, so `value(0) = final_p = 0 ≠ 1`. -/
theorem schedule_value_zero_duration_cex :
    (⟨0, 1, 0⟩ : LinearSchedule).value 0 ≠
      (⟨0, 1, 0⟩ : LinearSchedule).initial_p := by
  norm_num [LinearSchedule.value]

/-- C5 (amended): `value(step)` equals
`initial_p + min(1, step/duration) * (final_p - initial_p)` with the fraction
treated as `1` when the duration is `0`; consequently `value(0) = initial_p`
whenever the duration is positive (when the duration is `0`,
`value(0) = final_p`), `value(step) = final_p` for every `step ≥ duration`,
`value` is monotone toward `final_p`, and a zero duration is special-cased
(the function is total). -/
theorem schedule_value_properties :
    (∀ (sch : LinearSchedule) (t : ℕ),
      sch.value t = sch.initial_p + sch.fraction t
        * (sch.final_p - sch.initial_p)) ∧
    (∀ sch : LinearSchedule, 0 < sch.schedule_timesteps →
      sch.value 0 = sch.initial_p) ∧
    (∀ sch : LinearSchedule, sch.schedule_timesteps = 0 →
      sch.value 0 = sch.final_p) ∧
    (∀ (sch : LinearSchedule) (t : ℕ), sch.schedule_timesteps ≤ t →
      sch.value t = sch.final_p) ∧
    (∀ (sch : LinearSchedule) (t1 t2 : ℕ), t1 ≤ t2 →
      sch.initial_p ≤ sch.final_p → sch.value t1 ≤ sch.value t2) ∧
    (∀ (sch : LinearSchedule) (t1 t2 : ℕ), t1 ≤ t2 →
      sch.final_p ≤ sch.initial_p → sch.value t2 ≤ sch.value t1) :=
  ⟨fun sch t => sch.value_eq t,
   fun sch h => sch.value_zero h,
   fun sch h => sch.value_zero_of_dur_zero h,
   fun sch t h => sch.value_of_le t h,
   fun sch _ _ h hif => sch.value_mono_of_le h hif,
   fun sch _ _ h hif => sch.value_anti_of_ge h hif⟩

/-- C5 (witness): the duration-positive case of `schedule_value_properties`
at the concrete schedule `(5, 1, 0)`. -/
theorem schedule_value_properties_witness :
    (⟨5, 1, 0⟩ : LinearSchedule).value 0 =
      (⟨5, 1, 0⟩ : LinearSchedule).initial_p :=
  schedule_value_properties.2.1 ⟨5, 1, 0⟩ (by decide)

/-- C9 (counterexample): the claim asserts the exploration rate at step 0 is
always `1.0`, but with `exploration_fraction = 1/10` and `total_timesteps = 5`
the schedule duration is `int(0.5) = 0`, so the step-0 rate is
`exploration_final_eps = 1/50`, not `1`. -/
theorem exploration_step0_cex :
    (explorationSchedule (1 / 10) 5 (1 / 50)).value 0 ≠ 1 := by
  norm_num [explorationSchedule, LinearSchedule.value]

/-- C9 (amended): the exploration schedule is constructed with initial value
`1.0`, final value `exploration_final_eps` and duration
`int(exploration_fraction * total_timesteps)`; the exploration rate at step 0
is `1.0` whenever that duration is positive (when the truncated product is
`0`, the step-0 rate equals `exploration_final_eps` instead). -/
theorem exploration_schedule_construction :
    (∀ (f : ℚ) (T : ℕ) (e : ℚ),
      explorationSchedule f T e = ⟨(⌊f * (T : ℚ)⌋).toNat, 1, e⟩) ∧
    (∀ (f : ℚ) (T : ℕ) (e : ℚ),
      0 < (explorationSchedule f T e).schedule_timesteps →
      (explorationSchedule f T e).value 0 = 1) :=
  ⟨fun _ _ _ => rfl,
   fun _ _ _ h => LinearSchedule.value_zero _ h⟩

/-- C9 (witness): with `exploration_fraction = 1/10` and
`total_timesteps = 100` the duration is `10 > 0` and the step-0 exploration
rate is exactly `1`. -/
theorem exploration_schedule_construction_witness :
    (explorationSchedule (1 / 10) 100 (1 / 50)).value 0 = 1 :=
  exploration_schedule_construction.2 (1 / 10) 100 (1 / 50)
    (by norm_num [explorationSchedule])

/-- C1 (counterexample): in the end-to-end scenario (buffer_size=100,
learning_starts=10, train_freq=1, 50 steps, reward 1.0, done every 10 steps)
the number of learning calls is not 40: the strict `t > learning_starts`
test admits only `t = 11..49`. -/
theorem scenario_learning_calls_cex : scenarioState.trainCalls ≠ 40 := by
  decide

/-- C1 (amended): a learning step is executed at step `t` exactly when
`t > learning_starts` and `t mod train_freq = 0`; in the end-to-end scenario
(buffer_size=100, learning_starts=10, batch_size=4, train_freq=1, 50 steps on
the deterministic mock environment with fixed reward 1.0 and done every 10
steps) this produces exactly 5 completed episodes, each with summed reward
10.0 (plus a fresh zero-initialized running entry), and exactly 39 learning
calls — steps 11 through 49, one fewer than the claimed `50 - 10 = 40`. -/
theorem learning_step_schedule :
    (∀ (O S P : Type) [Inhabited O] (cfg : Config) (env : GymEnv O S)
        (actF : List O → ℚ → ℕ) (trainF : P → P) (tdF : P → List ℚ)
        (cb : ℕ → LoopState O S P → Bool) (t : ℕ) (s : LoopState O S P),
      cb t s = false →
      ((loopBody cfg env actF trainF tdF cb t s).1).trainCalls =
        if cfg.learning_starts < t ∧ t % cfg.train_freq = 0 then
          s.trainCalls + 1
        else s.trainCalls) ∧
    scenarioState.trainCalls = 39 ∧
    scenarioState.episode_rewards = [10, 10, 10, 10, 10, 0] := by
  refine ⟨?_, by decide, ?_⟩
  · intro O S P _ cfg env actF trainF tdF cb t s h
    exact loopBody_trainCalls cfg env actF trainF tdF cb t s h
  · norm_num [scenarioState, learnRun, runFrom, loopBody, initialState,
      mockEnv10, cfgScenario, chosenAction, updateEps, updateLast,
      explorationSchedule, LinearSchedule.value, DEEPQ.update_target,
      newPriorities]

/-- C1 (witness): the learning-step rule of `learning_step_schedule` at the
concrete step 11 of the scenario, starting from the initial state. -/
theorem learning_step_schedule_witness :
    ((loopBody cfgScenario mockEnv10 (fun _ _ => 0) Nat.succ (fun _ => [])
        (fun _ _ => false) 11 initState0).1).trainCalls =
      if cfgScenario.learning_starts < 11 ∧ 11 % cfgScenario.train_freq = 0
      then initState0.trainCalls + 1
      else initState0.trainCalls :=
  learning_step_schedule.1 ℕ ℕ ℕ cfgScenario mockEnv10 (fun _ _ => 0)
    Nat.succ (fun _ => []) (fun _ _ => false) 11 initState0 rfl

/-- C2: every executed loop iteration issues exactly one `replay_buffer.add`
call, appending the single transition built from the first element of the
observation batch; and in the `VecEnv` branch the stored record is
`(obs[0], action, rew[0], new_obs[0], float(done[0]))`, independent of the
vector width (the tails of the batches are discarded). -/
theorem one_transition_per_step :
    (∀ (O S P : Type) [Inhabited O] (cfg : Config) (env : GymEnv O S)
        (actF : List O → ℚ → ℕ) (trainF : P → P) (tdF : P → List ℚ)
        (cb : ℕ → LoopState O S P → Bool) (t : ℕ) (s : LoopState O S P),
      cb t s = false →
      ((loopBody cfg env actF trainF tdF cb t s).1).buffer =
        s.buffer ++
          [⟨s.obs.headI, chosenAction cfg actF t s,
            (env.step s.envState (chosenAction cfg actF t s)).2.2.1,
            (env.step s.envState (chosenAction cfg actF t s)).2.1,
            if (env.step s.envState (chosenAction cfg actF t s)).2.2.2 then 1
            else 0⟩]) ∧
    (∀ (O : Type) [Inhabited O] (b : List (Transition O)) (o : O)
        (os : List O) (a : ℕ) (r : ℚ) (rs : List ℚ) (n : O) (ns : List O)
        (d : Bool) (ds : List Bool),
      vecAdd b (o :: os) a (r :: rs) (n :: ns) (d :: ds) =
        b ++ [⟨o, a, r, n, if d then 1 else 0⟩]) ∧
    (∀ (O : Type) [Inhabited O] (b : List (Transition O)) (obs : List O)
        (a : ℕ) (rew : List ℚ) (new_obs : List O) (dn : List Bool),
      (vecAdd b obs a rew new_obs dn).length = b.length + 1) := by
  refine ⟨?_, ?_, ?_⟩
  · intro O S P _ cfg env actF trainF tdF cb t s h
    exact loopBody_buffer cfg env actF trainF tdF cb t s h
  · intro O _ b o os a r rs n ns d ds
    rfl
  · intro O _ b obs a rew new_obs dn
    simp [vecAdd]

/-- C2 (witness): the single-append rule of `one_transition_per_step` at
step 0 of the scenario, starting from the initial state. -/
theorem one_transition_per_step_witness :
    ((loopBody cfgScenario mockEnv10 (fun _ _ => 0) Nat.succ (fun _ => [])
        (fun _ _ => false) 0 initState0).1).buffer =
      initState0.buffer ++
        [⟨initState0.obs.headI, chosenAction cfgScenario (fun _ _ => 0) 0
            initState0,
          (mockEnv10.step initState0.envState
            (chosenAction cfgScenario (fun _ _ => 0) 0 initState0)).2.2.1,
          (mockEnv10.step initState0.envState
            (chosenAction cfgScenario (fun _ _ => 0) 0 initState0)).2.1,
          if (mockEnv10.step initState0.envState
            (chosenAction cfgScenario (fun _ _ => 0) 0 initState0)).2.2.2
          then 1 else 0⟩] :=
  one_transition_per_step.1 ℕ ℕ ℕ cfgScenario mockEnv10 (fun _ _ => 0)
    Nat.succ (fun _ => []) (fun _ _ => false) 0 initState0 rfl

/-- C3: the target parameters change within an iteration exactly when
`t > learning_starts` and `t mod target_network_update_freq = 0`, and then
they become precisely the current (post-train) online parameters — never an
interpolated value; in the sync scenario (`target_network_update_freq = 5`,
`learning_starts = 0`, 20 steps, never-done mock environment) the final
target parameters are exactly the online parameters as of the last executed
sync step 15, i.e. the opaque gradient step iterated 15 times from the
initial parameters, for every choice of parameter type and gradient step. -/
theorem target_sync_schedule :
    (∀ (O S P : Type) [Inhabited O] (cfg : Config) (env : GymEnv O S)
        (actF : List O → ℚ → ℕ) (trainF : P → P) (tdF : P → List ℚ)
        (cb : ℕ → LoopState O S P → Bool) (t : ℕ) (s : LoopState O S P),
      cb t s = false →
      ((loopBody cfg env actF trainF tdF cb t s).1).model.target =
        if cfg.learning_starts < t ∧ t % cfg.target_network_update_freq = 0
        then ((loopBody cfg env actF trainF tdF cb t s).1).model.online
        else s.model.target) ∧
    (∀ (P : Type) (f : P → P) (p0 t0 : P),
      (learnRun cfgSync mockEnvNoDone (fun _ _ => 0) f (fun _ => [])
        (fun _ _ => false) 0 p0 t0).model.target = f^[15] p0) := by
  refine ⟨?_, ?_⟩
  · intro O S P _ cfg env actF trainF tdF cb t s h
    exact loopBody_target cfg env actF trainF tdF cb t s h
  · intro P f p0 t0
    rfl

/-- C3 (witness): the sync rule of `target_sync_schedule` at the concrete
step 5 of the sync scenario, starting from the initial state. -/
theorem target_sync_schedule_witness :
    ((loopBody cfgSync mockEnvNoDone (fun _ _ => 0) Nat.succ (fun _ => [])
        (fun _ _ => false) 5 initState0).1).model.target =
      if cfgSync.learning_starts < 5 ∧ 5 % cfgSync.target_network_update_freq = 0
      then ((loopBody cfgSync mockEnvNoDone (fun _ _ => 0) Nat.succ
        (fun _ => []) (fun _ _ => false) 5 initState0).1).model.online
      else initState0.model.target :=
  target_sync_schedule.1 ℕ ℕ ℕ cfgSync mockEnvNoDone (fun _ _ => 0) Nat.succ
    (fun _ => []) (fun _ _ => false) 5 initState0 rfl

/-- C4: an executed iteration breaks the loop exactly when its done flag is
set and the length of the (just-updated) episode-reward list exceeds
`total_episodes`; when done is set but the cap is not exceeded, the iteration
instead resets the environment, appends a zero-initialized episode entry and
sets the post-reset flag; in the capped scenario (`total_episodes = 2`, done
every 10 steps, 50 timesteps available) the loop stops after the third
completed episode: 30 environment steps and episode rewards `[10, 10, 10]`. -/
theorem episode_end_handling :
    (∀ (O S P : Type) [Inhabited O] (cfg : Config) (env : GymEnv O S)
        (actF : List O → ℚ → ℕ) (trainF : P → P) (tdF : P → List ℚ)
        (cb : ℕ → LoopState O S P → Bool) (t : ℕ) (s : LoopState O S P),
      cb t s = false →
      ((loopBody cfg env actF trainF tdF cb t s).2 = true ↔
        ((env.step s.envState (chosenAction cfg actF t s)).2.2.2 = true ∧
          cfg.total_episodes <
            (updateLast s.episode_rewards
              (env.step s.envState
                (chosenAction cfg actF t s)).2.2.1).length))) ∧
    (∀ (O S P : Type) [Inhabited O] (cfg : Config) (env : GymEnv O S)
        (actF : List O → ℚ → ℕ) (trainF : P → P) (tdF : P → List ℚ)
        (cb : ℕ → LoopState O S P → Bool) (t : ℕ) (s : LoopState O S P),
      cb t s = false →
      (env.step s.envState (chosenAction cfg actF t s)).2.2.2 = true →
      ¬ cfg.total_episodes <
        (updateLast s.episode_rewards
          (env.step s.envState (chosenAction cfg actF t s)).2.2.1).length →
      ((loopBody cfg env actF trainF tdF cb t s).1).reset = true ∧
      ((loopBody cfg env actF trainF tdF cb t s).1).episode_rewards =
        updateLast s.episode_rewards
          (env.step s.envState (chosenAction cfg actF t s)).2.2.1
          ++ [(0 : ℚ)] ∧
      ((loopBody cfg env actF trainF tdF cb t s).1).obs =
        [(env.reset
          (env.step s.envState (chosenAction cfg actF t s)).1).2] ∧
      (loopBody cfg env actF trainF tdF cb t s).2 = false) ∧
    episodeCapState.episode_rewards = [10, 10, 10] ∧
    episodeCapState.buffer.length = 30 := by
  refine ⟨?_, ?_, ?_, by decide⟩
  · intro O S P _ cfg env actF trainF tdF cb t s h
    exact loopBody_break_iff cfg env actF trainF tdF cb t s h
  · intro O S P _ cfg env actF trainF tdF cb t s h hdone hcap
    exact loopBody_done_reset cfg env actF trainF tdF cb t s h hdone hcap
  · norm_num [episodeCapState, cfgEpisodeCap, learnRun, runFrom, loopBody,
      initialState, mockEnv10, cfgScenario, chosenAction, updateEps,
      updateLast, explorationSchedule, LinearSchedule.value,
      DEEPQ.update_target, newPriorities]

/-- C4 (witness): the break rule of `episode_end_handling` at the concrete
step 0 of the scenario, starting from the initial state. -/
theorem episode_end_handling_witness :
    ((loopBody cfgScenario mockEnv10 (fun _ _ => 0) Nat.succ (fun _ => [])
        (fun _ _ => false) 0 initState0).2 = true ↔
      ((mockEnv10.step initState0.envState
          (chosenAction cfgScenario (fun _ _ => 0) 0 initState0)).2.2.2 = true ∧
        cfgScenario.total_episodes <
          (updateLast initState0.episode_rewards
            (mockEnv10.step initState0.envState
              (chosenAction cfgScenario (fun _ _ => 0) 0
                initState0)).2.2.1).length)) :=
  episode_end_handling.1 ℕ ℕ ℕ cfgScenario mockEnv10 (fun _ _ => 0) Nat.succ
    (fun _ => []) (fun _ _ => false) 0 initState0 rfl

/-- C6: the priorities written back after a prioritized learning step are
`|td_error| + prioritized_replay_eps` per sample, so for any positive epsilon
every written priority is strictly positive — over a whole training run,
every priority vector ever passed to `update_priorities` is entrywise
strictly positive. -/
theorem priorities_strictly_positive :
    (∀ (td : List ℚ) (eps : ℚ), 0 < eps →
      ∀ q ∈ newPriorities td eps, 0 < q) ∧
    (∀ (O S P : Type) [Inhabited O] (cfg : Config) (env : GymEnv O S)
        (actF : List O → ℚ → ℕ) (trainF : P → P) (tdF : P → List ℚ)
        (cb : ℕ → LoopState O S P → Bool) (es : S) (p0 t0 : P),
      0 < cfg.prioritized_replay_eps →
      ∀ l ∈ (learnRun cfg env actF trainF tdF cb es p0 t0).priorityUpdates,
        ∀ q ∈ l, 0 < q) := by
  refine ⟨newPriorities_pos, ?_⟩
  intro O S P _ cfg env actF trainF tdF cb es p0 t0 heps
  apply runFrom_priorityUpdates_pos cfg env actF trainF tdF cb heps
  intro l hl
  simp [initialState] at hl

/-- C6 (witness): the concrete priority `|-3| + 1` written for TD error `-3`
with epsilon `1` is strictly positive. -/
theorem priorities_strictly_positive_witness :
    (0 : ℚ) < |(-3 : ℚ)| + 1 :=
  priorities_strictly_positive.1 [-3] 1 (by norm_num) (|(-3 : ℚ)| + 1)
    (by simp [newPriorities])

/-- C7: the callback is checked at the start of every iteration before any
other per-step work, and a truthy return terminates the loop immediately with
the state untouched; the model object is returned to the caller on the
early-stop path as well (it is the model of the final loop state on every
path). -/
theorem callback_early_stop :
    (∀ (O S P : Type) [Inhabited O] (cfg : Config) (env : GymEnv O S)
        (actF : List O → ℚ → ℕ) (trainF : P → P) (tdF : P → List ℚ)
        (cb : ℕ → LoopState O S P → Bool) (t fuel : ℕ)
        (s : LoopState O S P),
      cb t s = true →
      runFrom cfg env actF trainF tdF cb t (fuel + 1) s = s) ∧
    (∀ (O S P : Type) [Inhabited O] (cfg : Config) (env : GymEnv O S)
        (actF : List O → ℚ → ℕ) (trainF : P → P) (tdF : P → List ℚ)
        (cb : ℕ → LoopState O S P → Bool) (es : S) (p0 t0 : P),
      cb 0 (initialState env es p0 t0) = true →
      learn cfg env actF trainF tdF cb es p0 t0 =
        DEEPQ.update_target ⟨p0, t0⟩) := by
  have h1 : ∀ (O S P : Type) [Inhabited O] (cfg : Config) (env : GymEnv O S)
      (actF : List O → ℚ → ℕ) (trainF : P → P) (tdF : P → List ℚ)
      (cb : ℕ → LoopState O S P → Bool) (t fuel : ℕ) (s : LoopState O S P),
      cb t s = true →
      runFrom cfg env actF trainF tdF cb t (fuel + 1) s = s := by
    intro O S P _ cfg env actF trainF tdF cb t fuel s h
    rw [runFrom_succ, loopBody_cb_true cfg env actF trainF tdF cb t s h]
    simp
  refine ⟨h1, ?_⟩
  intro O S P _ cfg env actF trainF tdF cb es p0 t0 h
  unfold learn learnRun
  rcases htt : cfg.total_timesteps with _ | n
  · rfl
  · rw [h1 O S P cfg env actF trainF tdF cb 0 n _ h]
    rfl

/-- C7 (witness): a callback that immediately returns true stops the scenario
run at step 0 with the loop state unchanged. -/
theorem callback_early_stop_witness :
    runFrom cfgScenario mockEnv10 (fun _ _ => 0) Nat.succ (fun _ => [])
      (fun _ _ => true) 0 1 initState0 = initState0 :=
  callback_early_stop.1 ℕ ℕ ℕ cfgScenario mockEnv10 (fun _ _ => 0) Nat.succ
    (fun _ => []) (fun _ _ => true) 0 0 initState0 rfl

/-- C8: for a non-empty priority list with strictly positive priorities and
non-negative beta, every importance weight `(N * P(i))^(-beta) / max_weight`
is at most `1`, and a sampled index holding the minimum priority receives
weight exactly `1`. -/
theorem importance_weights_le_one (ps : List ℝ) (beta : ℝ) (i : ℕ)
    (hne : ps ≠ []) (hpos : ∀ p ∈ ps, 0 < p) (hbeta : 0 ≤ beta)
    (hi : i < ps.length) :
    isWeight ps beta i ≤ 1 ∧
    (ps.getD i 0 = listMin ps → isWeight ps beta i = 1) := by
  have hS : 0 < ps.sum := List.sum_pos ps hpos hne
  have hN : (0 : ℝ) < (ps.length : ℝ) := by
    have h := List.length_pos.mpr hne
    exact_mod_cast h
  have hmin_pos : 0 < listMin ps := hpos _ (listMin_mem ps hne)
  have hpi_mem : ps.getD i 0 ∈ ps := by
    rw [List.getD_eq_getElem ps 0 hi]
    exact List.getElem_mem hi
  have hpi_pos : 0 < ps.getD i 0 := hpos _ hpi_mem
  have hle : listMin ps ≤ ps.getD i 0 := listMin_le ps _ hpi_mem
  have hapos : 0 < (ps.length : ℝ) * (listMin ps / ps.sum) :=
    mul_pos hN (div_pos hmin_pos hS)
  have hbpos : 0 < (ps.length : ℝ) * (ps.getD i 0 / ps.sum) :=
    mul_pos hN (div_pos hpi_pos hS)
  have hab : (ps.length : ℝ) * (listMin ps / ps.sum)
      ≤ (ps.length : ℝ) * (ps.getD i 0 / ps.sum) := by
    apply mul_le_mul_of_nonneg_left ?_ hN.le
    exact div_le_div_of_nonneg_right hle hS.le
  have hw : isWeight ps beta i =
      ((ps.length : ℝ) * (ps.getD i 0 / ps.sum)) ^ (-beta) /
        ((ps.length : ℝ) * (listMin ps / ps.sum)) ^ (-beta) := rfl
  have haw : 0 < ((ps.length : ℝ) * (listMin ps / ps.sum)) ^ (-beta) :=
    Real.rpow_pos_of_pos hapos _
  have hkey : ((ps.length : ℝ) * (ps.getD i 0 / ps.sum)) ^ (-beta)
      ≤ ((ps.length : ℝ) * (listMin ps / ps.sum)) ^ (-beta) := by
    rw [Real.rpow_neg hapos.le, Real.rpow_neg hbpos.le]
    exact inv_anti₀ (Real.rpow_pos_of_pos hapos beta)
      (Real.rpow_le_rpow hapos.le hab hbeta)
  refine ⟨?_, ?_⟩
  · rw [hw, div_le_one haw]
    exact hkey
  · intro heq
    rw [hw, heq]
    exact div_self (ne_of_gt haw)

/-- C8 (witness): the importance weight of index 0 in the priority list
`[1, 2]` with beta `1/2` is at most `1`; index 0 holds the minimum priority,
so its weight is also exactly `1`. -/
theorem importance_weights_le_one_witness :
    isWeight [1, 2] (1 / 2) 0 ≤ 1 :=
  (importance_weights_le_one [1, 2] (1 / 2) 0 (by simp)
    (by intro p hp; simp at hp; rcases hp with rfl | rfl <;> norm_num)
    (by norm_num) (by simp)).1

/-- C10: in parameter-noise mode `update_eps` is the constant `0` (the action
is selected with epsilon `0`, epsilon-greedy randomness fully disabled);
without parameter noise the keyword dictionary passed to `model.step` is
empty — no noise-threshold or noise-scale arguments — while with parameter
noise it carries the reset flag, the noise threshold and
`update_param_noise_scale = True`. -/
theorem param_noise_eps_zero :
    (∀ v : ℚ, updateEps true v = 0) ∧
    (∀ (O S P : Type) [Inhabited O] (cfg : Config) (actF : List O → ℚ → ℕ)
        (t : ℕ) (s : LoopState O S P),
      cfg.param_noise = true → chosenAction cfg actF t s = actF s.obs 0) ∧
    (∀ (v : ℚ) (r : Bool) (n : ℕ),
      stepKwargs false v r n = ⟨none, none, none⟩) ∧
    (∀ (v : ℚ) (r : Bool) (n : ℕ),
      (stepKwargs true v r n).reset = some r ∧
      (stepKwargs true v r n).update_param_noise_scale = some true ∧
      (stepKwargs true v r n).update_param_noise_threshold ≠ none) := by
  refine ⟨fun _ => rfl, ?_, fun _ _ _ => rfl, ?_⟩
  · intro O S P _ cfg actF t s h
    simp [chosenAction, updateEps, h]
  · intro v r n
    refine ⟨rfl, rfl, ?_⟩
    simp [stepKwargs]

/-- C10 (witness): with parameter noise enabled in the scenario
configuration, the action at step 3 is selected with epsilon exactly `0`. -/
theorem param_noise_eps_zero_witness :
    chosenAction { cfgScenario with param_noise := true } (fun _ _ => 7) 3
        initState0 =
      (fun (_ : List ℕ) (_ : ℚ) => 7) initState0.obs 0 :=
  param_noise_eps_zero.2.1 ℕ ℕ ℕ { cfgScenario with param_noise := true }
    (fun _ _ => 7) 3 initState0 rfl

end Baselines

